import Mathlib

/-!
Verification of the database-mcp protocol proxy / process supervision layer.

The TypeScript sources under `src/` are shallowly embedded below.  The process
environment (`process.env`) is threaded explicitly as a map
`Env := String → Option String` (a variable that is absent maps to `none`;
a variable set to the empty string maps to `some ""`, matching Node's
semantics where such a variable is *present* but falsy).
-/

/-- The process environment: variable name to optional value. -/
abbrev Env := String → Option String

/-- The empty environment (no variable set). -/
def envEmpty : Env := fun _ => none

/-- The closed set of prebuilt database types (`src/types.ts`,
`PrebuiltDatabase`). -/
inductive PrebuiltDatabase where
  | postgres
  | mysql
  | sqlite
  | mongodb
  | redis
  | mssql
  | cloudSqlPostgres
  | cloudSqlMysql
  | alloydbPg
  | bigquery
  | spanner
  | firestore
deriving DecidableEq, Repr

/-- The string tag of each prebuilt database type, as written in the source. -/
def dbTag : PrebuiltDatabase → String
  | .postgres => "postgres"
  | .mysql => "mysql"
  | .sqlite => "sqlite"
  | .mongodb => "mongodb"
  | .redis => "redis"
  | .mssql => "mssql"
  | .cloudSqlPostgres => "cloud-sql-postgres"
  | .cloudSqlMysql => "cloud-sql-mysql"
  | .alloydbPg => "alloydb-pg"
  | .bigquery => "bigquery"
  | .spanner => "spanner"
  | .firestore => "firestore"

/-- A field value inside a generated Source Descriptor: the generated YAML
carries strings and numbers. -/
inductive FVal where
  | str (s : String)
  | num (n : Int)
deriving DecidableEq, Repr

/-- `getGlobalDbEnv` (`src/config.ts`): reads the unified `DATABASE_*`
variables. -/
structure GlobalDbEnv where
  host : Option String
  port : Option String
  database : Option String
  user : Option String
  password : Option String

/-- `getGlobalDbEnv` reads the five unified variables from the environment. -/
def getGlobalDbEnv (env : Env) : GlobalDbEnv where
  host := env "DATABASE_HOST"
  port := env "DATABASE_PORT"
  database := env "DATABASE_NAME"
  user := env "DATABASE_USER"
  password := env "DATABASE_PASSWORD"

/-- `toNumber` (`src/config.ts`): a falsy value (absent or empty string) gives
the fallback; otherwise the string is parsed as a number, falling back when it
does not parse to a finite number (integer-valued inputs modelled). -/
def toNumber (value : Option String) (fallback : Int) : Int :=
  match value with
  | none => fallback
  | some s => if s = "" then fallback else (s.toInt?).getD fallback

/-- A generated configuration: the source map of `generatePrebuiltConfig`,
as an ordered list of (source name, field list) pairs.  Field order follows
the object literals in the source. -/
abbrev GenConfig := List (String × List (String × FVal))

/-- `generatePrebuiltConfig` (`src/config.ts`): the per-dialect source
templates, field for field as in the source file. -/
def generatePrebuiltConfig (env : Env) (dbType : PrebuiltDatabase) : GenConfig :=
  let g := getGlobalDbEnv env
  match dbType with
  | .postgres =>
    [("postgres-db",
      [("kind", .str "postgres"),
       ("host", .str (g.host.getD "localhost")),
       ("port", .num (toNumber g.port 5432)),
       ("database", .str (g.database.getD "postgres")),
       ("user", .str (g.user.getD "postgres")),
       ("password", .str (g.password.getD ""))])]
  | .mysql =>
    [("mysql-db",
      [("kind", .str "mysql"),
       ("host", .str (g.host.getD "localhost")),
       ("port", .num (toNumber g.port 3306)),
       ("database", .str (g.database.getD "mysql")),
       ("user", .str (g.user.getD "root")),
       ("password", .str (g.password.getD ""))])]
  | .sqlite =>
    [("sqlite-db",
      [("kind", .str "sqlite"),
       ("database", .str (g.database.getD "./database.db"))])]
  | .mongodb =>
    [("mongo-db",
      [("kind", .str "mongodb"),
       ("host", .str (g.host.getD "localhost")),
       ("port", .num (toNumber g.port 27017)),
       ("database", .str (g.database.getD "test")),
       ("user", .str (g.user.getD "")),
       ("password", .str (g.password.getD ""))])]
  | .redis =>
    [("redis-db",
      [("kind", .str "redis"),
       ("host", .str (g.host.getD "localhost")),
       ("port", .num (toNumber g.port 6379)),
       ("password", .str (g.password.getD ""))])]
  | .mssql =>
    [("mssql-db",
      [("kind", .str "mssql"),
       ("host", .str (g.host.getD "localhost")),
       ("port", .num (toNumber g.port 1433)),
       ("database", .str (g.database.getD "master")),
       ("user", .str (g.user.getD "sa")),
       ("password", .str (g.password.getD ""))])]
  | .cloudSqlPostgres =>
    [("cloud-sql-pg",
      [("kind", .str "cloud-sql-postgres"),
       ("project", .str ((env "GCP_PROJECT").getD "")),
       ("region", .str ((env "GCP_REGION").getD "us-central1")),
       ("instance", .str ((env "CLOUD_SQL_INSTANCE").getD "")),
       ("database", .str (g.database.getD "postgres")),
       ("user", .str (g.user.getD "postgres")),
       ("password", .str (g.password.getD ""))])]
  | .cloudSqlMysql =>
    [("cloud-sql-mysql",
      [("kind", .str "cloud-sql-mysql"),
       ("project", .str ((env "GCP_PROJECT").getD "")),
       ("region", .str ((env "GCP_REGION").getD "us-central1")),
       ("instance", .str ((env "CLOUD_SQL_INSTANCE").getD "")),
       ("database", .str (g.database.getD "mysql")),
       ("user", .str (g.user.getD "root")),
       ("password", .str (g.password.getD ""))])]
  | .alloydbPg =>
    [("alloydb-pg",
      [("kind", .str "alloydb-pg"),
       ("project", .str ((env "GCP_PROJECT").getD "")),
       ("region", .str ((env "GCP_REGION").getD "us-central1")),
       ("cluster", .str ((env "ALLOYDB_CLUSTER").getD "")),
       ("instance", .str ((env "ALLOYDB_INSTANCE").getD "")),
       ("database", .str (g.database.getD "postgres")),
       ("user", .str (g.user.getD "postgres")),
       ("password", .str (g.password.getD ""))])]
  | .bigquery =>
    [("bigquery",
      [("kind", .str "bigquery"),
       ("project", .str ((env "GCP_PROJECT").getD "")),
       ("dataset", .str ((env "BIGQUERY_DATASET").getD ""))])]
  | .spanner =>
    [("spanner",
      [("kind", .str "spanner"),
       ("project", .str ((env "GCP_PROJECT").getD "")),
       ("instance", .str ((env "SPANNER_INSTANCE").getD "")),
       ("database", .str ((env "SPANNER_DATABASE").getD ""))])]
  | .firestore =>
    [("firestore",
      [("kind", .str "firestore"),
       ("project", .str ((env "GCP_PROJECT").getD "")),
       ("database", .str ((env "FIRESTORE_DATABASE").getD "(default)"))])]

/-- The environment variable a generated field is read from, per dialect
(used only in the statement of the characterization theorem below). -/
def corrVar (d : PrebuiltDatabase) (field : String) : String :=
  if field = "host" then "DATABASE_HOST"
  else if field = "port" then "DATABASE_PORT"
  else if field = "database" then
    (if d = .spanner then "SPANNER_DATABASE"
     else if d = .firestore then "FIRESTORE_DATABASE"
     else "DATABASE_NAME")
  else if field = "user" then "DATABASE_USER"
  else if field = "password" then "DATABASE_PASSWORD"
  else if field = "project" then "GCP_PROJECT"
  else if field = "region" then "GCP_REGION"
  else if field = "cluster" then "ALLOYDB_CLUSTER"
  else if field = "dataset" then "BIGQUERY_DATASET"
  else if field = "instance" then
    (if d = .alloydbPg then "ALLOYDB_INSTANCE"
     else if d = .spanner then "SPANNER_INSTANCE"
     else "CLOUD_SQL_INSTANCE")
  else ""

/-- How the value of one generated field is obtained from the environment,
given the hardcoded default value `v` that the empty environment produces
(statement-side characterization, not part of the embedding). -/
def overrideField (env : Env) (d : PrebuiltDatabase) (field : String) (v : FVal) : FVal :=
  if field = "kind" then v
  else if field = "port" then
    match env "DATABASE_PORT" with
    | none => v
    | some s => if s = "" then v else (match s.toInt? with | some n => .num n | none => v)
  else
    match env (corrVar d field) with
    | none => v
    | some s => .str s

/-- Apply the per-field characterization to a whole generated config. -/
def overrideConfig (env : Env) (d : PrebuiltDatabase) (c : GenConfig) : GenConfig :=
  c.map (fun s => (s.1, s.2.map (fun kv => (kv.1, overrideField env d kv.1 kv.2))))

lemma strOverrideAux (o : Option String) (dfl : String) :
    (match o with | none => FVal.str dfl | some s => FVal.str s) = FVal.str (o.getD dfl) := by
  cases o <;> rfl

lemma numOverrideAux (o : Option String) (fb : Int) :
    (match o with
     | none => FVal.num fb
     | some s => if s = "" then FVal.num fb
                 else (match s.toInt? with | some n => FVal.num n | none => FVal.num fb))
    = FVal.num (toNumber o fb) := by
  cases o with
  | none => rfl
  | some s =>
    simp only [toNumber]
    by_cases h : s = ""
    · simp [h]
    · simp only [h, if_neg h, if_false]
      cases s.toInt? <;> simp [Option.getD]

lemma toNumberAux (o : Option String) (fb : Int) :
    (match o with | none => fb | some s => if s = "" then fb else s.toInt?.getD fb)
    = toNumber o fb := by
  cases o <;> rfl

/-- Characterization: the generated config for any environment is the
empty-environment template with each field overridden from its
corresponding environment variable when that variable is set. -/
theorem generatePrebuiltConfig_eq_override (env : Env) (d : PrebuiltDatabase) :
    generatePrebuiltConfig env d = overrideConfig env d (generatePrebuiltConfig envEmpty d) := by
  cases d <;>
    simp only [generatePrebuiltConfig, overrideConfig, getGlobalDbEnv, envEmpty,
      overrideField, corrVar, toNumber, List.map_cons, List.map_nil, Option.getD_none,
      reduceIte, String.reduceEq] <;>
    simp [strOverrideAux, numOverrideAux, toNumberAux]

/-- The field list of the (single) source in a generated config. -/
def srcFields (c : GenConfig) : List (String × FVal) :=
  (c.head?.map Prod.snd).getD []

/-- `overrideConfig` never changes the source names or the field keys. -/
lemma overrideConfig_keys (env : Env) (d : PrebuiltDatabase) (c : GenConfig) :
    (overrideConfig env d c).map (fun s => (s.1, s.2.map Prod.fst))
      = c.map (fun s => (s.1, s.2.map Prod.fst)) := by
  simp [overrideConfig, List.map_map, Function.comp_def]

/-- C1, counterexample: with every variable unset, dialect-driven synthesis
for `postgres` still emits a `host` field, filled with the hardcoded default
`"localhost"` — contradicting "a field is present iff its environment
variable was set" and "no field is filled with a hardcoded default". -/
theorem claim_C1_counterexample :
    envEmpty "DATABASE_HOST" = none ∧
    (srcFields (generatePrebuiltConfig envEmpty .postgres)).lookup "host"
      = some (.str "localhost") := by
  exact ⟨rfl, by decide⟩

/-- C1 (amended): for every dialect and environment, the synthesized config
has an environment-independent shape — the source name and the set of field
keys never depend on the environment — and each field's value equals its
corresponding environment variable when that variable is set and the
hardcoded dialect default (the empty-environment value) when it is unset;
unset fields are never omitted. -/
theorem claim_C1_amended (env : Env) (d : PrebuiltDatabase) :
    generatePrebuiltConfig env d = overrideConfig env d (generatePrebuiltConfig envEmpty d)
    ∧ (generatePrebuiltConfig env d).map (fun s => (s.1, s.2.map Prod.fst))
        = (generatePrebuiltConfig envEmpty d).map (fun s => (s.1, s.2.map Prod.fst)) := by
  refine ⟨generatePrebuiltConfig_eq_override env d, ?_⟩
  rw [generatePrebuiltConfig_eq_override env d, overrideConfig_keys]

/-- The environment of the C8 scenario: only `DATABASE_NAME` is set. -/
def envC8 : Env := fun k => if k = "DATABASE_NAME" then some "./my.db" else none

/-- C8: with no declarative file and only `DATABASE_NAME="./my.db"` set,
sqlite synthesis yields exactly one source, named `sqlite-db`, with
`kind="sqlite"`, `database="./my.db"`, and no host/port/user/password keys. -/
theorem claim_C8 :
    generatePrebuiltConfig envC8 .sqlite
      = [("sqlite-db", [("kind", .str "sqlite"), ("database", .str "./my.db")])]
    ∧ (srcFields (generatePrebuiltConfig envC8 .sqlite)).lookup "host" = none
    ∧ (srcFields (generatePrebuiltConfig envC8 .sqlite)).lookup "port" = none
    ∧ (srcFields (generatePrebuiltConfig envC8 .sqlite)).lookup "user" = none
    ∧ (srcFields (generatePrebuiltConfig envC8 .sqlite)).lookup "password" = none := by
  refine ⟨by decide, by decide, by decide, by decide, by decide⟩

/-- A character usable inside a variable name: the regex class matching
characters other than a colon or a closing brace. -/
def nameChar (c : Char) : Bool := c != ':' && c != '}'

/-- A character usable inside a default value: anything but a closing
brace. -/
def defaultChar (c : Char) : Bool := c != '}'

/-- Attempt to match, right after an opening `$`-brace, the remainder of the
substitution pattern: a nonempty variable name, then either a closing brace
or a colon, a default value and a closing brace.  Returns the name, the
optional default and the characters following the pattern; the greedy
capture groups of the regex become `takeWhile`/`dropWhile`. -/
def tryMatch (cs : List Char) : Option (List Char × Option (List Char) × List Char) :=
  if (cs.takeWhile nameChar).isEmpty then none
  else
    match cs.dropWhile nameChar with
    | '}' :: rest' => some (cs.takeWhile nameChar, none, rest')
    | ':' :: rest2 =>
      (match rest2.dropWhile defaultChar with
       | '}' :: rest4 => some (cs.takeWhile nameChar, some (rest2.takeWhile defaultChar), rest4)
       | _ => none)
    | _ => none

/-- The replacement text: environment value when set, otherwise the default,
otherwise the empty string (`process.env[envVar] ?? defaultValue ?? ''`). -/
def resolveVar (env : Env) (nm : List Char) (df : Option (List Char)) : List Char :=
  match env (String.mk nm) with
  | some v => v.data
  | none => match df with | some d => d | none => []

/-- The left-to-right global replacement performed by
`String.prototype.replace` with the pattern regex, on a character list,
with explicit fuel (one unit per scanned position suffices). -/
def substCharsF (env : Env) : Nat → List Char → List Char
  | _, [] => []
  | 0, c :: rest => c :: rest
  | fuel + 1, c :: rest =>
    if c = '$' then
      match rest with
      | '{' :: rest2 =>
        (match tryMatch rest2 with
         | some (nm, df, rest') => resolveVar env nm df ++ substCharsF env fuel rest'
         | none => c :: substCharsF env fuel rest)
      | _ => c :: substCharsF env fuel rest
    else c :: substCharsF env fuel rest

/-- Replacement on a character list, fuel instantiated. -/
def substChars (env : Env) (cs : List Char) : List Char :=
  substCharsF env cs.length cs

/-- Replacement on a string: the string-leaf case of `replaceEnvVars`. -/
def substString (env : Env) (s : String) : String :=
  String.mk (substChars env s.data)

/-- A parsed YAML document (`parseYaml` output): string/number/boolean
scalars, null, arrays and objects. -/
inductive Value where
  | str (s : String)
  | num (n : Int)
  | bool (b : Bool)
  | null
  | arr (xs : List Value)
  | obj (fs : List (String × Value))

mutual

/-- `replaceEnvVars` (`src/config.ts`): recursively replace the
substitution patterns in every string leaf; arrays are mapped, objects are
rebuilt entry by entry, all other scalars are returned unchanged. -/
def replaceEnvVars (env : Env) : Value → Value
  | .str s => .str (substString env s)
  | .num n => .num n
  | .bool b => .bool b
  | .null => .null
  | .arr xs => .arr (replaceEnvVarsList env xs)
  | .obj fs => .obj (replaceEnvVarsObj env fs)

/-- `replaceEnvVars` mapped over an array's elements. -/
def replaceEnvVarsList (env : Env) : List Value → List Value
  | [] => []
  | v :: vs => replaceEnvVars env v :: replaceEnvVarsList env vs

/-- `replaceEnvVars` mapped over an object's entries. -/
def replaceEnvVarsObj (env : Env) : List (String × Value) → List (String × Value)
  | [] => []
  | (k, v) :: fs => (k, replaceEnvVars env v) :: replaceEnvVarsObj env fs

end

lemma length_dropWhile_le (p : Char → Bool) (l : List Char) :
    (l.dropWhile p).length ≤ l.length := by
  induction l with
  | nil => simp
  | cons c t ih =>
    rw [List.dropWhile_cons]
    split
    · exact le_trans ih (by simp)
    · simp

lemma tryMatch_len {cs nm : List Char} {df : Option (List Char)} {rest' : List Char}
    (h : tryMatch cs = some (nm, df, rest')) : rest'.length ≤ cs.length := by
  unfold tryMatch at h
  split at h
  · exact absurd h (by simp)
  · split at h
    · rename_i rest1 heq
      simp only [Option.some.injEq, Prod.mk.injEq] at h
      obtain ⟨-, -, h3⟩ := h
      subst h3
      have h1 : ('}' :: rest1).length ≤ cs.length := heq ▸ length_dropWhile_le nameChar cs
      simp at h1
      omega
    · rename_i rest2 heq
      split at h
      · rename_i rest4 heq2
        simp only [Option.some.injEq, Prod.mk.injEq] at h
        obtain ⟨-, -, h3⟩ := h
        subst h3
        have h1 : (':' :: rest2).length ≤ cs.length := heq ▸ length_dropWhile_le nameChar cs
        have h2 : ('}' :: rest4).length ≤ rest2.length :=
          heq2 ▸ length_dropWhile_le defaultChar rest2
        simp at h1 h2
        omega
      · exact absurd h (by simp)
    · exact absurd h (by simp)

lemma substCharsF_nil (env : Env) (f : Nat) : substCharsF env f [] = [] := by
  cases f <;> rfl

lemma substCharsF_congr (env : Env) : ∀ (n : Nat) (cs : List Char), cs.length ≤ n →
    ∀ (f₁ f₂ : Nat), cs.length ≤ f₁ → cs.length ≤ f₂ →
      substCharsF env f₁ cs = substCharsF env f₂ cs := by
  intro n
  induction n with
  | zero =>
    intro cs hcs f₁ f₂ _ _
    have : cs = [] := List.length_eq_zero.mp (Nat.le_zero.mp hcs)
    subst this
    simp [substCharsF_nil]
  | succ n ih =>
    intro cs hcs f₁ f₂ h₁ h₂
    cases cs with
    | nil => simp [substCharsF_nil]
    | cons c rest =>
      obtain ⟨a, rfl⟩ : ∃ a, f₁ = a + 1 := ⟨f₁ - 1, by simp at h₁; omega⟩
      obtain ⟨b, rfl⟩ : ∃ b, f₂ = b + 1 := ⟨f₂ - 1, by simp at h₂; omega⟩
      simp only [substCharsF]
      have hrest : rest.length ≤ n := by simp at hcs; omega
      have hra : rest.length ≤ a := by simp at h₁; omega
      have hrb : rest.length ≤ b := by simp at h₂; omega
      split
      · split
        · rename_i rest2
          simp only [List.length_cons] at hrest hra hrb
          cases htm : tryMatch rest2 with
          | none =>
            simp only [htm]
            rw [ih ('{' :: rest2) (by simp; omega) a b (by simp; omega) (by simp; omega)]
          | some x =>
            obtain ⟨nm, df, rest'⟩ := x
            simp only [htm]
            have hr' : rest'.length ≤ rest2.length := tryMatch_len htm
            rw [ih rest' (by omega) a b (by omega) (by omega)]
        · rw [ih rest hrest a b hra hrb]
      · rw [ih rest hrest a b hra hrb]

lemma substCharsF_eq_substChars (env : Env) (f : Nat) (cs : List Char)
    (h : cs.length ≤ f) : substCharsF env f cs = substChars env cs :=
  substCharsF_congr env cs.length cs le_rfl f cs.length h le_rfl

lemma takeWhile_all_append (p : Char → Bool) (xs : List Char) (y : Char) (ys : List Char)
    (hx : ∀ c ∈ xs, p c = true) (hy : p y = false) :
    (xs ++ y :: ys).takeWhile p = xs := by
  induction xs with
  | nil => simp [List.takeWhile_cons, hy]
  | cons a t ih =>
    have ha : p a = true := hx a (by simp)
    simp only [List.cons_append, List.takeWhile_cons, ha, if_pos]
    rw [ih (fun c hc => hx c (by simp [hc]))]

lemma dropWhile_all_append (p : Char → Bool) (xs : List Char) (y : Char) (ys : List Char)
    (hx : ∀ c ∈ xs, p c = true) (hy : p y = false) :
    (xs ++ y :: ys).dropWhile p = y :: ys := by
  induction xs with
  | nil => simp [List.dropWhile_cons, hy]
  | cons a t ih =>
    have ha : p a = true := hx a (by simp)
    simp only [List.cons_append, List.dropWhile_cons, ha, if_pos]
    exact ih (fun c hc => hx c (by simp [hc]))

lemma tryMatch_close (nm suf : List Char) (h1 : nm ≠ [])
    (h2 : ∀ c ∈ nm, nameChar c = true) :
    tryMatch (nm ++ '}' :: suf) = some (nm, none, suf) := by
  have hb : nameChar '}' = false := by decide
  unfold tryMatch
  rw [takeWhile_all_append nameChar nm '}' suf h2 hb,
      dropWhile_all_append nameChar nm '}' suf h2 hb]
  simp [h1]

lemma tryMatch_default (nm df suf : List Char) (h1 : nm ≠ [])
    (h2 : ∀ c ∈ nm, nameChar c = true) (h3 : ∀ c ∈ df, defaultChar c = true) :
    tryMatch (nm ++ ':' :: (df ++ '}' :: suf)) = some (nm, some df, suf) := by
  have hb : nameChar ':' = false := by decide
  have hb2 : defaultChar '}' = false := by decide
  unfold tryMatch
  rw [takeWhile_all_append nameChar nm ':' (df ++ '}' :: suf) h2 hb,
      dropWhile_all_append nameChar nm ':' (df ++ '}' :: suf) h2 hb]
  simp only [List.isEmpty_eq_true, h1, if_neg]
  rw [dropWhile_all_append defaultChar df '}' suf h3 hb2,
      takeWhile_all_append defaultChar df '}' suf h3 hb2]
  simp

lemma substChars_match_step (env : Env) (rest2 nm : List Char)
    (df : Option (List Char)) (rest' : List Char)
    (h : tryMatch rest2 = some (nm, df, rest')) :
    substChars env ('$' :: '{' :: rest2) = resolveVar env nm df ++ substChars env rest' := by
  show substCharsF env (('$' :: '{' :: rest2).length) ('$' :: '{' :: rest2) = _
  have : ('$' :: '{' :: rest2).length = rest2.length + 1 + 1 := by simp
  rw [this]
  simp only [substCharsF, if_pos rfl, h]
  rw [substCharsF_eq_substChars env (rest2.length + 1) rest'
    (Nat.le_succ_of_le (tryMatch_len h))]
  simp

lemma substChars_no_dollar_append (env : Env) (pre cs : List Char)
    (h : '$' ∉ pre) : substChars env (pre ++ cs) = pre ++ substChars env cs := by
  induction pre with
  | nil => simp
  | cons a t ih =>
    have ha : a ≠ '$' := fun hcontra => h (by simp [hcontra])
    have ht : '$' ∉ t := fun hmem => h (by simp [hmem])
    show substCharsF env ((a :: (t ++ cs)).length) (a :: (t ++ cs)) = _
    have hl : (a :: (t ++ cs)).length = (t ++ cs).length + 1 := by simp
    rw [hl]
    simp only [substCharsF, if_neg ha]
    rw [substCharsF_eq_substChars env ((t ++ cs).length) (t ++ cs) le_rfl, ih ht]
    simp

/-- C5: inside any string leaf, an occurrence of a substitution pattern
(with or without a default) preceded by dollar-free text is replaced by the
value of the environment variable when it is set — regardless of whether a
default is present — and by the default (empty when no default was written)
when it is unset; the substitution function is total by construction. -/
theorem claim_C5 (env : Env) (pre nm df suf : List Char)
    (hpre : '$' ∉ pre) (hnm : nm ≠ []) (hnmc : ∀ c ∈ nm, nameChar c = true)
    (hdf : ∀ c ∈ df, defaultChar c = true) :
    (substChars env (pre ++ '$' :: '{' :: (nm ++ ':' :: (df ++ '}' :: suf)))
        = pre ++ (resolveVar env nm (some df) ++ substChars env suf))
    ∧ (substChars env (pre ++ '$' :: '{' :: (nm ++ '}' :: suf))
        = pre ++ (resolveVar env nm none ++ substChars env suf))
    ∧ (∀ v, env (String.mk nm) = some v →
        resolveVar env nm (some df) = v.data ∧ resolveVar env nm none = v.data)
    ∧ (env (String.mk nm) = none →
        resolveVar env nm (some df) = df ∧ resolveVar env nm none = []) := by
  refine ⟨?_, ?_, ?_, ?_⟩
  · rw [substChars_no_dollar_append env pre _ hpre,
        substChars_match_step env _ nm (some df) suf (tryMatch_default nm df suf hnm hnmc hdf)]
  · rw [substChars_no_dollar_append env pre _ hpre,
        substChars_match_step env _ nm none suf (tryMatch_close nm suf hnm hnmc)]
  · intro v hv
    unfold resolveVar
    rw [hv]
    exact ⟨rfl, rfl⟩
  · intro hv
    unfold resolveVar
    rw [hv]
    exact ⟨rfl, rfl⟩

/-- The environment used by the C5 witness. -/
def envC5 : Env := fun k => if k = "F" then some "val" else none

/-- Witness for C5 at a concrete instance. -/
theorem claim_C5_witness :
    (('$' ∉ (['a'] : List Char)) ∧ (['F'] : List Char) ≠ []
      ∧ (∀ c ∈ (['F'] : List Char), nameChar c = true)
      ∧ (∀ c ∈ (['d'] : List Char), defaultChar c = true))
    ∧ ((substChars envC5 (['a'] ++ '$' :: '{' :: (['F'] ++ ':' :: (['d'] ++ '}' :: ['z'])))
          = ['a'] ++ (resolveVar envC5 ['F'] (some ['d']) ++ substChars envC5 ['z']))
      ∧ (substChars envC5 (['a'] ++ '$' :: '{' :: (['F'] ++ '}' :: ['z']))
          = ['a'] ++ (resolveVar envC5 ['F'] none ++ substChars envC5 ['z']))
      ∧ (∀ v, envC5 (String.mk ['F']) = some v →
          resolveVar envC5 ['F'] (some ['d']) = v.data ∧ resolveVar envC5 ['F'] none = v.data)
      ∧ (envC5 (String.mk ['F']) = none →
          resolveVar envC5 ['F'] (some ['d']) = ['d'] ∧ resolveVar envC5 ['F'] none = [])) :=
  ⟨⟨by decide, by decide, by decide, by decide⟩,
   claim_C5 envC5 ['a'] ['F'] ['d'] ['z'] (by decide) (by decide) (by decide) (by decide)⟩

/-- Does a character list contain a `$`-brace opener anywhere?  A list with
no such opener is left unchanged by the replacement pass. -/
def hasPat : List Char → Bool
  | [] => false
  | c :: rest => (c == '$' && rest.head? == some '{') || hasPat rest

lemma substChars_of_not_hasPat (env : Env) : ∀ cs : List Char,
    hasPat cs = false → substChars env cs = cs := by
  intro cs
  induction cs with
  | nil => intro _; rfl
  | cons c rest ih =>
    intro h
    simp only [hasPat, Bool.or_eq_false_iff, Bool.and_eq_false_iff] at h
    obtain ⟨h1, h2⟩ := h
    show substCharsF env ((c :: rest).length) (c :: rest) = _
    have hl : (c :: rest).length = rest.length + 1 := by simp
    rw [hl]
    simp only [substCharsF]
    by_cases hc : c = '$'
    · rw [if_pos hc]
      have hhd : rest.head? ≠ some '{' := by
        rcases h1 with h1 | h1
        · rw [hc] at h1; simp at h1
        · simpa using h1
      cases rest with
      | nil => simp [substCharsF_nil]
      | cons r rest2 =>
        have hr : r ≠ '{' := by simpa using hhd
        split
        · rename_i heq
          injection heq with hh _
          exact absurd hh hr
        · rw [substCharsF_eq_substChars env _ _ le_rfl, ih h2]
    · rw [if_neg hc, substCharsF_eq_substChars env _ _ le_rfl, ih h2]

mutual

/-- No string leaf of the value contains a `$`-brace opener. -/
def valueNoPat : Value → Bool
  | .str s => !hasPat s.data
  | .num _ => true
  | .bool _ => true
  | .null => true
  | .arr xs => listNoPat xs
  | .obj fs => objNoPat fs

/-- `valueNoPat` over an array's elements. -/
def listNoPat : List Value → Bool
  | [] => true
  | v :: vs => valueNoPat v && listNoPat vs

/-- `valueNoPat` over an object's entries. -/
def objNoPat : List (String × Value) → Bool
  | [] => true
  | (_, v) :: fs => valueNoPat v && objNoPat fs

end

mutual

theorem replaceEnvVars_of_noPat (env : Env) :
    ∀ v, valueNoPat v = true → replaceEnvVars env v = v
  | .str s, h => by
    have hp : hasPat s.data = false := by
      simpa [valueNoPat] using h
    simp only [replaceEnvVars, substString, substChars_of_not_hasPat env s.data hp]
  | .num _, _ => rfl
  | .bool _, _ => rfl
  | .null, _ => rfl
  | .arr xs, h => by
    have hx := replaceList_of_noPat env xs (by simpa [valueNoPat] using h)
    simp only [replaceEnvVars, hx]
  | .obj fs, h => by
    have hf := replaceObj_of_noPat env fs (by simpa [valueNoPat] using h)
    simp only [replaceEnvVars, hf]

theorem replaceList_of_noPat (env : Env) :
    ∀ xs, listNoPat xs = true → replaceEnvVarsList env xs = xs
  | [], _ => rfl
  | v :: vs, h => by
    have h' : valueNoPat v = true ∧ listNoPat vs = true := by
      simpa [listNoPat, Bool.and_eq_true] using h
    have hv := replaceEnvVars_of_noPat env v h'.1
    have hvs := replaceList_of_noPat env vs h'.2
    simp only [replaceEnvVarsList, hv, hvs]

theorem replaceObj_of_noPat (env : Env) :
    ∀ fs, objNoPat fs = true → replaceEnvVarsObj env fs = fs
  | [], _ => rfl
  | (k, v) :: fs, h => by
    have h' : valueNoPat v = true ∧ objNoPat fs = true := by
      simpa [objNoPat, Bool.and_eq_true] using h
    have hv := replaceEnvVars_of_noPat env v h'.1
    have hfs := replaceObj_of_noPat env fs h'.2
    simp only [replaceEnvVarsObj, hv, hfs]

end

/-- C6, counterexample: substitution is not idempotent on every document.
On the document consisting of the single string `"$\x7bA:$\x7bF\x7dOO\x7d"`
with an empty environment, one pass yields `"$\x7bFOO\x7d"` (the default
value reassembles a pattern with the text after the first closing brace)
and a second pass substitutes again, yielding `""`. -/
theorem claim_C6_counterexample :
    replaceEnvVars envEmpty (replaceEnvVars envEmpty (Value.str "$\x7bA:$\x7bF\x7dOO\x7d"))
      ≠ replaceEnvVars envEmpty (Value.str "$\x7bA:$\x7bF\x7dOO\x7d") := by
  intro hcontra
  have h1 : replaceEnvVars envEmpty (Value.str "$\x7bA:$\x7bF\x7dOO\x7d")
      = Value.str "$\x7bFOO\x7d" := rfl
  have h2 : replaceEnvVars envEmpty (Value.str "$\x7bFOO\x7d") = Value.str "" := rfl
  rw [h1, h2] at hcontra
  injection hcontra with hs
  exact absurd hs (by decide)

/-- C6 (amended): substitution is idempotent on every document whose
first-pass output contains no remaining `$`-brace opener in any string
leaf; in general a written default together with the surrounding text (or
an environment value) can reassemble a pattern, so a second pass may differ. -/
theorem claim_C6_amended (env : Env) (doc : Value)
    (h : valueNoPat (replaceEnvVars env doc) = true) :
    replaceEnvVars env (replaceEnvVars env doc) = replaceEnvVars env doc :=
  replaceEnvVars_of_noPat env (replaceEnvVars env doc) h

/-- Witness for the amended C6 at a concrete document. -/
theorem claim_C6_amended_witness :
    valueNoPat (replaceEnvVars envEmpty (Value.str "hello")) = true
    ∧ replaceEnvVars envEmpty (replaceEnvVars envEmpty (Value.str "hello"))
        = replaceEnvVars envEmpty (Value.str "hello") :=
  ⟨by decide, claim_C6_amended envEmpty (Value.str "hello") (by decide)⟩

/-- JS truthiness of an optional environment value: absent and empty string
are falsy. -/
def truthy : Option String → Bool
  | some s => s != ""
  | none => false

/-- Set one variable of an environment map. -/
def setVar (e : Env) (k v : String) : Env := fun k' => if k' = k then some v else e k'

/-- One character of the uppercase-and-underscore rewriting applied to the
prebuilt tag: dashes become underscores, letters become uppercase. -/
def upperSnakeChar (c : Char) : Char := if c = '-' then '_' else c.toUpper

/-- The `upperType` computed by `mapEnvForToolbox`: the tag rewritten
character by character. -/
def upperType (d : PrebuiltDatabase) : String :=
  String.mk ((dbTag d).data.map upperSnakeChar)

/-- `mapEnvForToolbox` (`src/cli.ts`, updated server copy): copy each unified
`DATABASE_*` variable down to its dialect-specific name when the unified
variable is truthy and the dialect-specific one is not; all reads are from
the input environment, all writes go to the copied result. -/
def mapEnvForToolbox (env : Env) (prebuiltType : Option PrebuiltDatabase) : Env :=
  match prebuiltType with
  | none => env
  | some t =>
    let u := upperType t
    let r1 := if truthy (env "DATABASE_NAME") && !truthy (env (u ++ "_DATABASE"))
              then setVar env (u ++ "_DATABASE") ((env "DATABASE_NAME").getD "") else env
    let r2 := if truthy (env "DATABASE_HOST") && !truthy (env (u ++ "_HOST"))
              then setVar r1 (u ++ "_HOST") ((env "DATABASE_HOST").getD "") else r1
    let r3 := if truthy (env "DATABASE_PORT") && !truthy (env (u ++ "_PORT"))
              then setVar r2 (u ++ "_PORT") ((env "DATABASE_PORT").getD "") else r2
    let r4 := if truthy (env "DATABASE_USER") && !truthy (env (u ++ "_USER"))
              then setVar r3 (u ++ "_USER") ((env "DATABASE_USER").getD "") else r3
    let r5 := if truthy (env "DATABASE_PASSWORD") && !truthy (env (u ++ "_PASSWORD"))
              then setVar r4 (u ++ "_PASSWORD") ((env "DATABASE_PASSWORD").getD "") else r4
    r5

/-- The five dialect-specific variable names `mapEnvForToolbox` may write. -/
def writtenKeys (t : PrebuiltDatabase) : List String :=
  [upperType t ++ "_DATABASE", upperType t ++ "_HOST", upperType t ++ "_PORT",
   upperType t ++ "_USER", upperType t ++ "_PASSWORD"]

lemma string_app_right_inj (u : String) {a b : String} (h : a ≠ b) :
    u ++ a ≠ u ++ b := by
  intro hc
  apply h
  have hd : u.data ++ a.data = u.data ++ b.data := congrArg String.data hc
  exact String.ext (List.append_cancel_left hd)

lemma truthy_some {o : Option String} (h : truthy o = true) : some (o.getD "") = o := by
  cases o with
  | none => simp [truthy] at h
  | some s => simp

lemma eval_step (prev : Env) (cond : Bool) (key v k : String) :
    (if cond then setVar prev key v else prev) k
      = if k = key ∧ cond = true then some v else prev k := by
  by_cases hc : cond = true
  · by_cases hk : k = key <;> simp [setVar, hc, hk]
  · simp only [Bool.not_eq_true] at hc
    simp [hc]

lemma mapEnv_unrelated (env : Env) (t : PrebuiltDatabase) (k : String)
    (h1 : k ≠ upperType t ++ "_DATABASE") (h2 : k ≠ upperType t ++ "_HOST")
    (h3 : k ≠ upperType t ++ "_PORT") (h4 : k ≠ upperType t ++ "_USER")
    (h5 : k ≠ upperType t ++ "_PASSWORD") :
    mapEnvForToolbox env (some t) k = env k := by
  simp only [mapEnvForToolbox, eval_step, h1, h2, h3, h4, h5, false_and, if_false]

lemma mapEnv_at_DATABASE (env : Env) (t : PrebuiltDatabase) :
    mapEnvForToolbox env (some t) (upperType t ++ "_DATABASE")
      = if truthy (env "DATABASE_NAME") && !truthy (env (upperType t ++ "_DATABASE"))
        then env "DATABASE_NAME" else env (upperType t ++ "_DATABASE") := by
  have n2 : upperType t ++ "_DATABASE" ≠ upperType t ++ "_HOST" := string_app_right_inj _ (by decide)
  have n3 : upperType t ++ "_DATABASE" ≠ upperType t ++ "_PORT" := string_app_right_inj _ (by decide)
  have n4 : upperType t ++ "_DATABASE" ≠ upperType t ++ "_USER" := string_app_right_inj _ (by decide)
  have n5 : upperType t ++ "_DATABASE" ≠ upperType t ++ "_PASSWORD" := string_app_right_inj _ (by decide)
  simp only [mapEnvForToolbox, eval_step, n2, n3, n4, n5, false_and, if_false, true_and]
  by_cases hc : (truthy (env "DATABASE_NAME") && !truthy (env (upperType t ++ "_DATABASE"))) = true
  · simp only [hc, if_pos]
    rw [Bool.and_eq_true] at hc
    simp [truthy_some hc.1]
  · simp only [Bool.not_eq_true] at hc
    simp [hc]

lemma mapEnv_at_HOST (env : Env) (t : PrebuiltDatabase) :
    mapEnvForToolbox env (some t) (upperType t ++ "_HOST")
      = if truthy (env "DATABASE_HOST") && !truthy (env (upperType t ++ "_HOST"))
        then env "DATABASE_HOST" else env (upperType t ++ "_HOST") := by
  have n1 : upperType t ++ "_HOST" ≠ upperType t ++ "_DATABASE" := string_app_right_inj _ (by decide)
  have n3 : upperType t ++ "_HOST" ≠ upperType t ++ "_PORT" := string_app_right_inj _ (by decide)
  have n4 : upperType t ++ "_HOST" ≠ upperType t ++ "_USER" := string_app_right_inj _ (by decide)
  have n5 : upperType t ++ "_HOST" ≠ upperType t ++ "_PASSWORD" := string_app_right_inj _ (by decide)
  simp only [mapEnvForToolbox, eval_step, n1, n3, n4, n5, false_and, if_false, true_and]
  by_cases hc : (truthy (env "DATABASE_HOST") && !truthy (env (upperType t ++ "_HOST"))) = true
  · simp only [hc, if_pos]
    rw [Bool.and_eq_true] at hc
    simp [truthy_some hc.1]
  · simp only [Bool.not_eq_true] at hc
    simp [hc]

lemma mapEnv_at_PORT (env : Env) (t : PrebuiltDatabase) :
    mapEnvForToolbox env (some t) (upperType t ++ "_PORT")
      = if truthy (env "DATABASE_PORT") && !truthy (env (upperType t ++ "_PORT"))
        then env "DATABASE_PORT" else env (upperType t ++ "_PORT") := by
  have n1 : upperType t ++ "_PORT" ≠ upperType t ++ "_DATABASE" := string_app_right_inj _ (by decide)
  have n2 : upperType t ++ "_PORT" ≠ upperType t ++ "_HOST" := string_app_right_inj _ (by decide)
  have n4 : upperType t ++ "_PORT" ≠ upperType t ++ "_USER" := string_app_right_inj _ (by decide)
  have n5 : upperType t ++ "_PORT" ≠ upperType t ++ "_PASSWORD" := string_app_right_inj _ (by decide)
  simp only [mapEnvForToolbox, eval_step, n1, n2, n4, n5, false_and, if_false, true_and]
  by_cases hc : (truthy (env "DATABASE_PORT") && !truthy (env (upperType t ++ "_PORT"))) = true
  · simp only [hc, if_pos]
    rw [Bool.and_eq_true] at hc
    simp [truthy_some hc.1]
  · simp only [Bool.not_eq_true] at hc
    simp [hc]

lemma mapEnv_at_USER (env : Env) (t : PrebuiltDatabase) :
    mapEnvForToolbox env (some t) (upperType t ++ "_USER")
      = if truthy (env "DATABASE_USER") && !truthy (env (upperType t ++ "_USER"))
        then env "DATABASE_USER" else env (upperType t ++ "_USER") := by
  have n1 : upperType t ++ "_USER" ≠ upperType t ++ "_DATABASE" := string_app_right_inj _ (by decide)
  have n2 : upperType t ++ "_USER" ≠ upperType t ++ "_HOST" := string_app_right_inj _ (by decide)
  have n3 : upperType t ++ "_USER" ≠ upperType t ++ "_PORT" := string_app_right_inj _ (by decide)
  have n5 : upperType t ++ "_USER" ≠ upperType t ++ "_PASSWORD" := string_app_right_inj _ (by decide)
  simp only [mapEnvForToolbox, eval_step, n1, n2, n3, n5, false_and, if_false, true_and]
  by_cases hc : (truthy (env "DATABASE_USER") && !truthy (env (upperType t ++ "_USER"))) = true
  · simp only [hc, if_pos]
    rw [Bool.and_eq_true] at hc
    simp [truthy_some hc.1]
  · simp only [Bool.not_eq_true] at hc
    simp [hc]

lemma mapEnv_at_PASSWORD (env : Env) (t : PrebuiltDatabase) :
    mapEnvForToolbox env (some t) (upperType t ++ "_PASSWORD")
      = if truthy (env "DATABASE_PASSWORD") && !truthy (env (upperType t ++ "_PASSWORD"))
        then env "DATABASE_PASSWORD" else env (upperType t ++ "_PASSWORD") := by
  have n1 : upperType t ++ "_PASSWORD" ≠ upperType t ++ "_DATABASE" := string_app_right_inj _ (by decide)
  have n2 : upperType t ++ "_PASSWORD" ≠ upperType t ++ "_HOST" := string_app_right_inj _ (by decide)
  have n3 : upperType t ++ "_PASSWORD" ≠ upperType t ++ "_PORT" := string_app_right_inj _ (by decide)
  have n4 : upperType t ++ "_PASSWORD" ≠ upperType t ++ "_USER" := string_app_right_inj _ (by decide)
  simp only [mapEnvForToolbox, eval_step, n1, n2, n3, n4, false_and, if_false, true_and]
  by_cases hc : (truthy (env "DATABASE_PASSWORD") && !truthy (env (upperType t ++ "_PASSWORD"))) = true
  · simp only [hc, if_pos]
    rw [Bool.and_eq_true] at hc
    simp [truthy_some hc.1]
  · simp only [Bool.not_eq_true] at hc
    simp [hc]

lemma unified_ne_written (t : PrebuiltDatabase) :
    ∀ uk ∈ (["DATABASE_NAME", "DATABASE_HOST", "DATABASE_PORT", "DATABASE_USER",
             "DATABASE_PASSWORD"] : List String),
    uk ≠ upperType t ++ "_DATABASE" ∧ uk ≠ upperType t ++ "_HOST"
    ∧ uk ≠ upperType t ++ "_PORT" ∧ uk ≠ upperType t ++ "_USER"
    ∧ uk ≠ upperType t ++ "_PASSWORD" := by
  cases t <;> decide

lemma mapEnv_unified_fix (env : Env) (t : PrebuiltDatabase) (uk : String)
    (h : uk ∈ (["DATABASE_NAME", "DATABASE_HOST", "DATABASE_PORT", "DATABASE_USER",
                "DATABASE_PASSWORD"] : List String)) :
    mapEnvForToolbox env (some t) uk = env uk := by
  obtain ⟨h1, h2, h3, h4, h5⟩ := unified_ne_written t uk h
  exact mapEnv_unrelated env t uk h1 h2 h3 h4 h5

lemma idem_at_key (env : Env) (t : PrebuiltDatabase) (uk dk : String)
    (hmap : ∀ e : Env, mapEnvForToolbox e (some t) dk
        = if truthy (e uk) && !truthy (e dk) then e uk else e dk)
    (huk : mapEnvForToolbox env (some t) uk = env uk) :
    mapEnvForToolbox (mapEnvForToolbox env (some t)) (some t) dk
      = mapEnvForToolbox env (some t) dk := by
  rw [hmap (mapEnvForToolbox env (some t)), huk]
  have hrdk : mapEnvForToolbox env (some t) dk
      = if truthy (env uk) && !truthy (env dk) then env uk else env dk := hmap env
  by_cases hc : (truthy (env uk) && !truthy (env dk)) = true
  · rw [hrdk, if_pos hc]
    rw [Bool.and_eq_true] at hc
    simp [hc.1]
  · simp only [Bool.not_eq_true] at hc
    rw [hrdk]
    simp [hc]

lemma mapEnv_idem (env : Env) (t : PrebuiltDatabase) :
    mapEnvForToolbox (mapEnvForToolbox env (some t)) (some t)
      = mapEnvForToolbox env (some t) := by
  funext k
  by_cases h1 : k = upperType t ++ "_DATABASE"
  · subst h1
    exact idem_at_key env t "DATABASE_NAME" _ (fun e => mapEnv_at_DATABASE e t)
      (mapEnv_unified_fix env t _ (by simp))
  by_cases h2 : k = upperType t ++ "_HOST"
  · subst h2
    exact idem_at_key env t "DATABASE_HOST" _ (fun e => mapEnv_at_HOST e t)
      (mapEnv_unified_fix env t _ (by simp))
  by_cases h3 : k = upperType t ++ "_PORT"
  · subst h3
    exact idem_at_key env t "DATABASE_PORT" _ (fun e => mapEnv_at_PORT e t)
      (mapEnv_unified_fix env t _ (by simp))
  by_cases h4 : k = upperType t ++ "_USER"
  · subst h4
    exact idem_at_key env t "DATABASE_USER" _ (fun e => mapEnv_at_USER e t)
      (mapEnv_unified_fix env t _ (by simp))
  by_cases h5 : k = upperType t ++ "_PASSWORD"
  · subst h5
    exact idem_at_key env t "DATABASE_PASSWORD" _ (fun e => mapEnv_at_PASSWORD e t)
      (mapEnv_unified_fix env t _ (by simp))
  rw [mapEnv_unrelated _ t k h1 h2 h3 h4 h5, mapEnv_unrelated env t k h1 h2 h3 h4 h5]

/-- The environment of the C7 counterexample: the unified host is set to a
nonempty value, the dialect-specific host is present but set to the empty
string. -/
def envC7 : Env := fun k =>
  if k = "DATABASE_HOST" then some "h"
  else if k = "POSTGRES_HOST" then some "" else none

/-- C7, counterexample: with `POSTGRES_HOST` present (set to `""`) and
`DATABASE_HOST="h"`, the mapper overwrites the already-set dialect-specific
variable — contradicting "an already-set dialect-specific variable keeps
its value" and "extended with exactly those variables whose dialect-specific
name is unset": the code tests truthiness, so a variable set to the empty
string is treated as unset. -/
theorem claim_C7_counterexample :
    envC7 "POSTGRES_HOST" = some ""
    ∧ mapEnvForToolbox envC7 (some .postgres) "POSTGRES_HOST" = some "h" := by
  constructor
  · rfl
  · decide

/-- C7 (amended): for every environment and dialect, with "set" read as
"set to a nonempty value" (the code tests truthiness, so an empty-string
value counts as unset): the mapper leaves every variable other than the
five dialect-specific names unchanged; each dialect-specific variable
receives the unified value exactly when the unified variable is set and
the dialect-specific one is not, and keeps its own value otherwise; and
applying the mapping twice equals applying it once. -/
theorem claim_C7_amended (env : Env) (t : PrebuiltDatabase) :
    (∀ k, k ∉ writtenKeys t → mapEnvForToolbox env (some t) k = env k)
    ∧ (mapEnvForToolbox env (some t) (upperType t ++ "_DATABASE")
        = if truthy (env "DATABASE_NAME") && !truthy (env (upperType t ++ "_DATABASE"))
          then env "DATABASE_NAME" else env (upperType t ++ "_DATABASE"))
    ∧ (mapEnvForToolbox env (some t) (upperType t ++ "_HOST")
        = if truthy (env "DATABASE_HOST") && !truthy (env (upperType t ++ "_HOST"))
          then env "DATABASE_HOST" else env (upperType t ++ "_HOST"))
    ∧ (mapEnvForToolbox env (some t) (upperType t ++ "_PORT")
        = if truthy (env "DATABASE_PORT") && !truthy (env (upperType t ++ "_PORT"))
          then env "DATABASE_PORT" else env (upperType t ++ "_PORT"))
    ∧ (mapEnvForToolbox env (some t) (upperType t ++ "_USER")
        = if truthy (env "DATABASE_USER") && !truthy (env (upperType t ++ "_USER"))
          then env "DATABASE_USER" else env (upperType t ++ "_USER"))
    ∧ (mapEnvForToolbox env (some t) (upperType t ++ "_PASSWORD")
        = if truthy (env "DATABASE_PASSWORD") && !truthy (env (upperType t ++ "_PASSWORD"))
          then env "DATABASE_PASSWORD" else env (upperType t ++ "_PASSWORD"))
    ∧ mapEnvForToolbox (mapEnvForToolbox env (some t)) (some t)
        = mapEnvForToolbox env (some t) := by
  refine ⟨?_, mapEnv_at_DATABASE env t, mapEnv_at_HOST env t, mapEnv_at_PORT env t,
    mapEnv_at_USER env t, mapEnv_at_PASSWORD env t, mapEnv_idem env t⟩
  intro k hk
  simp only [writtenKeys, List.mem_cons, List.not_mem_nil, or_false, not_or] at hk
  obtain ⟨h1, h2, h3, h4, h5⟩ := hk
  exact mapEnv_unrelated env t k h1 h2 h3 h4 h5

/-- Witness for the amended C7 at a concrete environment, dialect and
unrelated key. -/
theorem claim_C7_amended_witness :
    ("OTHER_VAR" ∉ writtenKeys .postgres)
    ∧ mapEnvForToolbox envC7 (some .postgres) "OTHER_VAR" = envC7 "OTHER_VAR"
    ∧ mapEnvForToolbox (mapEnvForToolbox envC7 (some .postgres)) (some .postgres)
        = mapEnvForToolbox envC7 (some .postgres) :=
  ⟨by decide,
   (claim_C7_amended envC7 .postgres).1 "OTHER_VAR" (by decide),
   (claim_C7_amended envC7 .postgres).2.2.2.2.2.2⟩

/-- One content item of a result envelope. -/
structure ContentItem where
  ctype : String
  text : String
deriving DecidableEq, Repr

/-- The result envelope every tool invocation returns; an absent `isError`
is modelled as `false` (spec: absence signals success). -/
structure Envelope where
  content : List ContentItem
  isError : Bool := false
deriving DecidableEq, Repr

/-- The argument object of a tool call, restricted to the keys the built-in
handlers read; a key the caller did not pass is `none`. -/
structure Args where
  table : Option String := none
  schema : Option String := none
  column : Option String := none
  pattern : Option String := none
  limit : Option Int := none
deriving DecidableEq, Repr

/-- The payload of a remote call: either the single `sql` argument used by
`executeSQL`, or a verbatim forwarded argument object. -/
inductive CallPayload where
  | sql (s : String)
  | raw (a : Args)
deriving DecidableEq, Repr

/-- The remote toolbox client: a call either returns an envelope (`ok`) or
throws (`error`, carrying the message). -/
abbrev RemoteCall := String → CallPayload → Except String Envelope

/-- JS truthiness for an optional string argument (`!table` is true for an
absent or empty value). -/
def jsStr : Option String → Option String
  | some s => if s = "" then none else some s
  | none => none

/-- `value || dflt` for an optional string. -/
def strOr (v : Option String) (dflt : String) : String :=
  match jsStr v with
  | some s => s
  | none => dflt

/-- `s.includes(sub)` on strings. -/
def jsIncludes (s sub : String) : Bool := decide (sub.data <:+: s.data)

/-- `normalizeDbType` (`builtin-tools.ts`): collapse a prebuilt tag onto the
closed template key set. -/
def normalizeDbType (dbType : Option PrebuiltDatabase) : String :=
  match dbType with
  | none => "default"
  | some d =>
    if jsIncludes (dbTag d) "postgres" || jsIncludes (dbTag d) "alloydb" then "postgres"
    else if jsIncludes (dbTag d) "mysql" then "mysql"
    else if dbTag d = "sqlite" then "sqlite"
    else if dbTag d = "mssql" || jsIncludes (dbTag d) "mssql" then "mssql"
    else "default"

/-- `formatTableWithSchema` (`builtin-tools.ts`): dialect-specific quoting,
with the schema prefix dropped for an absent/empty/`public` schema. -/
def formatTableWithSchema (table : String) (schema : Option String) (dbType : String) : String :=
  if schema.isNone || schema = some "" || schema = some "public" then
    (if dbType = "postgres" then "\"" ++ table ++ "\""
     else if dbType = "mysql" then "`" ++ table ++ "`"
     else if dbType = "mssql" then "[" ++ table ++ "]"
     else "\"" ++ table ++ "\"")
  else
    (if dbType = "postgres" then "\"" ++ schema.getD "" ++ "\".\"" ++ table ++ "\""
     else if dbType = "mssql" then "[" ++ schema.getD "" ++ "].[" ++ table ++ "]"
     else "\"" ++ schema.getD "" ++ "\".\"" ++ table ++ "\"")

/-- `SQL_TEMPLATES.listTables`, selected by normalized type with the
`default` fallback. -/
def listTablesSQL (ty : String) (schema : Option String) : String :=
  if ty = "mysql" then "SHOW TABLES"
  else if ty = "sqlite" then "SELECT name FROM sqlite_master WHERE type='table' ORDER BY name"
  else if ty = "mssql" then
    "SELECT TABLE_NAME FROM INFORMATION_SCHEMA.TABLES WHERE TABLE_TYPE = 'BASE TABLE'"
      ++ (match jsStr schema with
          | some s => " AND TABLE_SCHEMA = '" ++ s ++ "'"
          | none => "")
      ++ " ORDER BY TABLE_NAME"
  else
    "SELECT table_name FROM information_schema.tables WHERE table_schema = '"
      ++ strOr schema "public" ++ "' ORDER BY table_name"

/-- `SQL_TEMPLATES.listSchemas`. -/
def listSchemasSQL (ty : String) : String :=
  if ty = "postgres" then
    "SELECT schema_name FROM information_schema.schemata WHERE schema_name NOT IN ('pg_catalog', 'information_schema', 'pg_toast') ORDER BY schema_name"
  else if ty = "mysql" then "SHOW DATABASES"
  else if ty = "sqlite" then "SELECT 'main' as schema_name"
  else if ty = "mssql" then
    "SELECT SCHEMA_NAME FROM INFORMATION_SCHEMA.SCHEMATA WHERE SCHEMA_NAME NOT IN ('guest', 'INFORMATION_SCHEMA', 'sys') ORDER BY SCHEMA_NAME"
  else "SELECT schema_name FROM information_schema.schemata ORDER BY schema_name"

/-- `SQL_TEMPLATES.listDatabases`. -/
def listDatabasesSQL (ty : String) : String :=
  if ty = "postgres" then
    "SELECT datname FROM pg_database WHERE datistemplate = false ORDER BY datname"
  else if ty = "mysql" then "SHOW DATABASES"
  else if ty = "sqlite" then "PRAGMA database_list"
  else if ty = "mssql" then "SELECT name FROM sys.databases ORDER BY name"
  else "SELECT datname FROM pg_database ORDER BY datname"

/-- `SQL_TEMPLATES.describeTable`. -/
def describeTableSQL (ty : String) (table : String) (schema : Option String) : String :=
  if ty = "postgres" then
    "SELECT column_name, data_type, is_nullable, column_default FROM information_schema.columns WHERE table_schema = '"
      ++ strOr schema "public" ++ "' AND table_name = '" ++ table
      ++ "' ORDER BY ordinal_position"
  else if ty = "mysql" then "DESCRIBE " ++ table
  else if ty = "sqlite" then "PRAGMA table_info(" ++ table ++ ")"
  else if ty = "mssql" then
    "SELECT COLUMN_NAME, DATA_TYPE, IS_NULLABLE, COLUMN_DEFAULT FROM INFORMATION_SCHEMA.COLUMNS WHERE TABLE_NAME = '"
      ++ table ++ "'"
      ++ (match jsStr schema with
          | some s => " AND TABLE_SCHEMA = '" ++ s ++ "'"
          | none => "")
      ++ " ORDER BY ORDINAL_POSITION"
  else
    "SELECT column_name, data_type, is_nullable FROM information_schema.columns WHERE table_schema = '"
      ++ strOr schema "public" ++ "' AND table_name = '" ++ table ++ "'"

/-- `SQL_TEMPLATES.previewTable`. -/
def previewTableSQL (ty : String) (table : String) (limit : Int) (schema : Option String) : String :=
  if ty = "mysql" then "SELECT * FROM `" ++ table ++ "` LIMIT " ++ toString limit
  else if ty = "sqlite" then "SELECT * FROM \"" ++ table ++ "\" LIMIT " ++ toString limit
  else if ty = "mssql" then
    "SELECT TOP " ++ toString limit ++ " * FROM " ++ formatTableWithSchema table schema "mssql"
  else
    "SELECT * FROM " ++ formatTableWithSchema table schema "postgres" ++ " LIMIT " ++ toString limit

/-- `SQL_TEMPLATES.countRows`. -/
def countRowsSQL (ty : String) (table : String) (schema : Option String) : String :=
  if ty = "mysql" then "SELECT COUNT(*) as row_count FROM `" ++ table ++ "`"
  else if ty = "sqlite" then "SELECT COUNT(*) as row_count FROM \"" ++ table ++ "\""
  else if ty = "mssql" then
    "SELECT COUNT(*) as row_count FROM " ++ formatTableWithSchema table schema "mssql"
  else "SELECT COUNT(*) as row_count FROM " ++ formatTableWithSchema table schema "postgres"

/-- `SQL_TEMPLATES.tableStats` (mysql/sqlite/mssql variants included;
`default` fallback as in the source). -/
def tableStatsSQL (ty : String) (table : String) (schema : Option String) : String :=
  if ty = "postgres" then
    "SELECT\n        (SELECT COUNT(*) FROM information_schema.columns WHERE table_schema = '"
      ++ strOr schema "public" ++ "' AND table_name = '" ++ table
      ++ "') as column_count,\n        (SELECT COUNT(*) FROM "
      ++ formatTableWithSchema table schema "postgres" ++ ") as row_count"
  else if ty = "mysql" then
    "SELECT\n        (SELECT COUNT(*) FROM information_schema.columns WHERE table_name = '"
      ++ table ++ "') as column_count,\n        (SELECT COUNT(*) FROM `" ++ table
      ++ "`) as row_count"
  else if ty = "sqlite" then
    "SELECT\n        (SELECT COUNT(*) FROM pragma_table_info('" ++ table
      ++ "')) as column_count,\n        (SELECT COUNT(*) FROM \"" ++ table
      ++ "\") as row_count"
  else if ty = "mssql" then
    "SELECT\n        (SELECT COUNT(*) FROM INFORMATION_SCHEMA.COLUMNS WHERE TABLE_NAME = '"
      ++ table ++ "'"
      ++ (match jsStr schema with
          | some s => " AND TABLE_SCHEMA = '" ++ s ++ "'"
          | none => "")
      ++ ") as column_count,\n        (SELECT COUNT(*) FROM "
      ++ formatTableWithSchema table schema "mssql" ++ ") as row_count"
  else
    "SELECT COUNT(*) as row_count FROM " ++ formatTableWithSchema table schema "postgres"

/-- `SQL_TEMPLATES.schemaInfo`: only postgres and mssql variants exist, every
other normalized type falls back to `default`. -/
def schemaInfoSQL (ty : String) (schema : String) : String :=
  if ty = "postgres" then
    "SELECT\n        '" ++ schema
      ++ "' as schema_name,\n        (SELECT COUNT(*) FROM information_schema.tables WHERE table_schema = '"
      ++ schema
      ++ "' AND table_type = 'BASE TABLE') as table_count,\n        (SELECT COUNT(*) FROM information_schema.views WHERE table_schema = '"
      ++ schema
      ++ "') as view_count,\n        (SELECT COUNT(*) FROM information_schema.routines WHERE routine_schema = '"
      ++ schema ++ "') as routine_count"
  else if ty = "mssql" then
    "SELECT\n        '" ++ schema
      ++ "' as schema_name,\n        (SELECT COUNT(*) FROM INFORMATION_SCHEMA.TABLES WHERE TABLE_SCHEMA = '"
      ++ schema
      ++ "' AND TABLE_TYPE = 'BASE TABLE') as table_count,\n        (SELECT COUNT(*) FROM INFORMATION_SCHEMA.VIEWS WHERE TABLE_SCHEMA = '"
      ++ schema
      ++ "') as view_count,\n        (SELECT COUNT(*) FROM INFORMATION_SCHEMA.ROUTINES WHERE ROUTINE_SCHEMA = '"
      ++ schema ++ "') as routine_count"
  else
    "SELECT '" ++ schema ++ "' as schema_name, 0 as table_count, 0 as view_count, 0 as routine_count"

/-- An error envelope with a single text item. -/
def errEnvelope (msg : String) : Envelope := ⟨[⟨"text", msg⟩], true⟩

/-- `executeSQL` (`builtin-tools.ts`): forward the statement to the remote
`execute_sql` tool, converting a thrown error into an error envelope. -/
def executeSQL (client : RemoteCall) (sql : String) : Envelope :=
  match client "execute_sql" (.sql sql) with
  | .ok r => r
  | .error e => errEnvelope ("Error executing SQL: " ++ e)

/-- `(args.limit as number) || dflt`: an absent value or the number 0 is
falsy and gives the default. -/
def jsOrNum (v : Option Int) (dflt : Int) : Int :=
  match v with
  | none => dflt
  | some x => if x = 0 then dflt else x

/-- `Math.min(Math.max(1, limit), 100)` applied to the `||`-defaulted
limit argument: the clamp used by `preview_table` and `sample_distinct`. -/
def clampLimit (v : Option Int) (dflt : Int) : Int := min (max 1 (jsOrNum v dflt)) 100

/-- The type of a built-in tool handler. -/
abbrev Handler := Args → RemoteCall → Option PrebuiltDatabase → Envelope

/-- A built-in tool: name, description, the `required` list of its input
schema, and its handler (the remaining static schema text is omitted). -/
structure BuiltinTool where
  name : String
  description : String
  required : List String
  handler : Handler

/-- `list_databases` handler. -/
def listDatabasesHandler : Handler := fun _ client dbType =>
  executeSQL client (listDatabasesSQL (normalizeDbType dbType))

/-- `list_schemas` handler. -/
def listSchemasHandler : Handler := fun _ client dbType =>
  executeSQL client (listSchemasSQL (normalizeDbType dbType))

/-- `schema_info` handler. -/
def schemaInfoHandler : Handler := fun args client dbType =>
  executeSQL client (schemaInfoSQL (normalizeDbType dbType) (strOr args.schema "public"))

/-- `list_tables` handler. -/
def listTablesHandler : Handler := fun args client dbType =>
  executeSQL client (listTablesSQL (normalizeDbType dbType) args.schema)

/-- `describe_table` handler, with the required-parameter check. -/
def describeTableHandler : Handler := fun args client dbType =>
  match jsStr args.table with
  | none => errEnvelope "Error: table name is required"
  | some table =>
    executeSQL client (describeTableSQL (normalizeDbType dbType) table args.schema)

/-- `preview_table` handler, with the required-parameter check and the
limit clamp (default 5). -/
def previewTableHandler : Handler := fun args client dbType =>
  match jsStr args.table with
  | none => errEnvelope "Error: table name is required"
  | some table =>
    executeSQL client
      (previewTableSQL (normalizeDbType dbType) table (clampLimit args.limit 5) args.schema)

/-- `count_rows` handler. -/
def countRowsHandler : Handler := fun args client dbType =>
  match jsStr args.table with
  | none => errEnvelope "Error: table name is required"
  | some table =>
    executeSQL client (countRowsSQL (normalizeDbType dbType) table args.schema)

/-- `table_stats` handler. -/
def tableStatsHandler : Handler := fun args client dbType =>
  match jsStr args.table with
  | none => errEnvelope "Error: table name is required"
  | some table =>
    executeSQL client (tableStatsSQL (normalizeDbType dbType) table args.schema)

/-- `search_tables` handler. -/
def searchTablesHandler : Handler := fun args client dbType =>
  match jsStr args.pattern with
  | none => errEnvelope "Error: search pattern is required"
  | some pat =>
    let schema := strOr args.schema "public"
    let ty := normalizeDbType dbType
    let sql :=
      if ty = "postgres" then
        "SELECT table_name FROM information_schema.tables WHERE table_schema = '" ++ schema
          ++ "' AND table_name ILIKE '%" ++ pat ++ "%' ORDER BY table_name"
      else if ty = "mysql" then "SHOW TABLES LIKE '%" ++ pat ++ "%'"
      else if ty = "sqlite" then
        "SELECT name FROM sqlite_master WHERE type='table' AND name LIKE '%" ++ pat
          ++ "%' ORDER BY name"
      else if ty = "mssql" then
        "SELECT TABLE_NAME FROM INFORMATION_SCHEMA.TABLES WHERE TABLE_TYPE = 'BASE TABLE' AND TABLE_SCHEMA = '"
          ++ schema ++ "' AND TABLE_NAME LIKE '%" ++ pat ++ "%' ORDER BY TABLE_NAME"
      else
        "SELECT table_name FROM information_schema.tables WHERE table_schema = '" ++ schema
          ++ "' AND table_name LIKE '%" ++ pat ++ "%' ORDER BY table_name"
    executeSQL client sql

/-- `list_columns` handler. -/
def listColumnsHandler : Handler := fun args client dbType =>
  match jsStr args.table with
  | none => errEnvelope "Error: table name is required"
  | some table =>
    let schema := strOr args.schema "public"
    let ty := normalizeDbType dbType
    let sql :=
      if ty = "postgres" then
        "SELECT column_name FROM information_schema.columns WHERE table_schema = '" ++ schema
          ++ "' AND table_name = '" ++ table ++ "' ORDER BY ordinal_position"
      else if ty = "mysql" then
        "SELECT COLUMN_NAME FROM INFORMATION_SCHEMA.COLUMNS WHERE TABLE_NAME = '" ++ table
          ++ "' ORDER BY ORDINAL_POSITION"
      else if ty = "sqlite" then
        "SELECT name FROM pragma_table_info('" ++ table ++ "')"
      else if ty = "mssql" then
        "SELECT COLUMN_NAME FROM INFORMATION_SCHEMA.COLUMNS WHERE TABLE_SCHEMA = '" ++ schema
          ++ "' AND TABLE_NAME = '" ++ table ++ "' ORDER BY ORDINAL_POSITION"
      else
        "SELECT column_name FROM information_schema.columns WHERE table_schema = '" ++ schema
          ++ "' AND table_name = '" ++ table ++ "'"
    executeSQL client sql

/-- `sample_distinct` handler, with the two-parameter requirement check and
the limit clamp (default 20). -/
def sampleDistinctHandler : Handler := fun args client dbType =>
  match jsStr args.table, jsStr args.column with
  | some table, some column =>
    let limit := clampLimit args.limit 20
    let ty := normalizeDbType dbType
    let sql :=
      if ty = "postgres" then
        "SELECT DISTINCT \"" ++ column ++ "\" FROM "
          ++ formatTableWithSchema table args.schema "postgres" ++ " LIMIT " ++ toString limit
      else if ty = "mysql" then
        "SELECT DISTINCT `" ++ column ++ "` FROM `" ++ table ++ "` LIMIT " ++ toString limit
      else if ty = "sqlite" then
        "SELECT DISTINCT \"" ++ column ++ "\" FROM \"" ++ table ++ "\" LIMIT "
          ++ toString limit
      else if ty = "mssql" then
        "SELECT DISTINCT TOP " ++ toString limit ++ " [" ++ column ++ "] FROM "
          ++ formatTableWithSchema table args.schema "mssql"
      else
        "SELECT DISTINCT \"" ++ column ++ "\" FROM "
          ++ formatTableWithSchema table args.schema "postgres" ++ " LIMIT " ++ toString limit
    executeSQL client sql
  | _, _ => errEnvelope "Error: table and column names are required"

/-- `list_views` handler. -/
def listViewsHandler : Handler := fun args client dbType =>
  let schema := strOr args.schema "public"
  let ty := normalizeDbType dbType
  let sql :=
    if ty = "postgres" then
      "SELECT table_name as view_name FROM information_schema.views WHERE table_schema = '"
        ++ schema ++ "' ORDER BY table_name"
    else if ty = "mysql" then
      "SELECT TABLE_NAME as view_name FROM INFORMATION_SCHEMA.VIEWS ORDER BY TABLE_NAME"
    else if ty = "sqlite" then
      "SELECT name as view_name FROM sqlite_master WHERE type='view' ORDER BY name"
    else if ty = "mssql" then
      "SELECT TABLE_NAME as view_name FROM INFORMATION_SCHEMA.VIEWS WHERE TABLE_SCHEMA = '"
        ++ schema ++ "' ORDER BY TABLE_NAME"
    else
      "SELECT table_name as view_name FROM information_schema.views WHERE table_schema = '"
        ++ schema ++ "' ORDER BY table_name"
  executeSQL client sql

/-- `list_indexes` handler. -/
def listIndexesHandler : Handler := fun args client dbType =>
  match jsStr args.table with
  | none => errEnvelope "Error: table name is required"
  | some table =>
    let schema := strOr args.schema "public"
    let ty := normalizeDbType dbType
    let sql :=
      if ty = "postgres" then
        "SELECT indexname, indexdef FROM pg_indexes WHERE schemaname = '" ++ schema
          ++ "' AND tablename = '" ++ table ++ "' ORDER BY indexname"
      else if ty = "mysql" then "SHOW INDEX FROM `" ++ table ++ "`"
      else if ty = "sqlite" then
        "SELECT name, sql FROM sqlite_master WHERE type='index' AND tbl_name='" ++ table
          ++ "' ORDER BY name"
      else if ty = "mssql" then
        "SELECT i.name as index_name, i.type_desc, i.is_unique, i.is_primary_key\n                 FROM sys.indexes i\n                 INNER JOIN sys.tables t ON i.object_id = t.object_id\n                 INNER JOIN sys.schemas s ON t.schema_id = s.schema_id\n                 WHERE s.name = '"
          ++ schema ++ "' AND t.name = '" ++ table ++ "'\n                 ORDER BY i.name"
      else
        "SELECT indexname FROM pg_indexes WHERE schemaname = '" ++ schema
          ++ "' AND tablename = '" ++ table ++ "'"
    executeSQL client sql

/-- `list_constraints` handler. -/
def listConstraintsHandler : Handler := fun args client dbType =>
  match jsStr args.table with
  | none => errEnvelope "Error: table name is required"
  | some table =>
    let schema := strOr args.schema "public"
    let ty := normalizeDbType dbType
    let sql :=
      if ty = "postgres" then
        "SELECT con.conname as constraint_name,\n                        con.contype as constraint_type,\n                        pg_get_constraintdef(con.oid) as definition\n                 FROM pg_constraint con\n                 JOIN pg_class rel ON rel.oid = con.conrelid\n                 JOIN pg_namespace nsp ON nsp.oid = rel.relnamespace\n                 WHERE nsp.nspname = '"
          ++ schema ++ "' AND rel.relname = '" ++ table ++ "'\n                 ORDER BY con.conname"
      else if ty = "mysql" then
        "SELECT CONSTRAINT_NAME, CONSTRAINT_TYPE\n                 FROM INFORMATION_SCHEMA.TABLE_CONSTRAINTS\n                 WHERE TABLE_NAME = '"
          ++ table ++ "'\n                 ORDER BY CONSTRAINT_NAME"
      else if ty = "sqlite" then
        "SELECT 'fk_' || id as constraint_name, 'FOREIGN KEY' as constraint_type,\n                        'REFERENCES ' || \"table\" || '(' || \"to\" || ')' as definition\n                 FROM pragma_foreign_key_list('"
          ++ table ++ "')"
      else if ty = "mssql" then
        "SELECT CONSTRAINT_NAME, CONSTRAINT_TYPE\n                 FROM INFORMATION_SCHEMA.TABLE_CONSTRAINTS\n                 WHERE TABLE_SCHEMA = '"
          ++ schema ++ "' AND TABLE_NAME = '" ++ table
          ++ "'\n                 ORDER BY CONSTRAINT_NAME"
      else
        "SELECT constraint_name, constraint_type FROM information_schema.table_constraints WHERE table_schema = '"
          ++ schema ++ "' AND table_name = '" ++ table ++ "'"
    executeSQL client sql

/-- `BUILTIN_TOOLS` (`builtin-tools.ts`): the static catalog, in source
order. -/
def BUILTIN_TOOLS : List BuiltinTool :=
  [{ name := "list_databases",
     description := "List all databases available on the server",
     required := [], handler := listDatabasesHandler },
   { name := "list_schemas",
     description := "List all schemas in the current database (PostgreSQL/MSSQL). For MySQL, this lists databases.",
     required := [], handler := listSchemasHandler },
   { name := "schema_info",
     description := "Get detailed information about a schema including table count, view count, and routine count (PostgreSQL/MSSQL)",
     required := [], handler := schemaInfoHandler },
   { name := "list_tables",
     description := "List all tables in a schema (PostgreSQL/MSSQL) or database (MySQL/SQLite)",
     required := [], handler := listTablesHandler },
   { name := "describe_table",
     description := "Get the schema/structure of a specific table including column names, data types, and constraints",
     required := ["table"], handler := describeTableHandler },
   { name := "preview_table",
     description := "Preview the first few rows of a table (default: 5 rows)",
     required := ["table"], handler := previewTableHandler },
   { name := "count_rows",
     description := "Count the total number of rows in a table",
     required := ["table"], handler := countRowsHandler },
   { name := "table_stats",
     description := "Get statistics for a table including row count and column count",
     required := ["table"], handler := tableStatsHandler },
   { name := "search_tables",
     description := "Search for tables by name pattern",
     required := ["pattern"], handler := searchTablesHandler },
   { name := "list_columns",
     description := "List all column names for a specific table",
     required := ["table"], handler := listColumnsHandler },
   { name := "sample_distinct",
     description := "Get distinct values from a column (useful for understanding data distribution)",
     required := ["table", "column"], handler := sampleDistinctHandler },
   { name := "list_views",
     description := "List all views in a schema (PostgreSQL/MSSQL) or database",
     required := [], handler := listViewsHandler },
   { name := "list_indexes",
     description := "List all indexes for a specific table",
     required := ["table"], handler := listIndexesHandler },
   { name := "list_constraints",
     description := "List all constraints (primary keys, foreign keys, unique, check) for a table",
     required := ["table"], handler := listConstraintsHandler }]

/-- A tool definition as listed to the protocol front-end (name and
description; the static input schema text is omitted). -/
structure ToolDef where
  name : String
  description : String
deriving DecidableEq, Repr

/-- `getBuiltinToolDefinitions` (`builtin-tools.ts`). -/
def getBuiltinToolDefinitions : List ToolDef :=
  BUILTIN_TOOLS.map (fun t => { name := t.name, description := t.description })

/-- `findBuiltinTool` (`builtin-tools.ts`). -/
def findBuiltinTool (name : String) : Option BuiltinTool :=
  BUILTIN_TOOLS.find? (fun t => t.name = name)

/-- The `ListToolsRequestSchema` handler (`src/cli.ts` updated server copy):
the remote tool list concatenated with the built-in definitions, no
de-duplication. -/
def listTools (toolboxTools : List ToolDef) : List ToolDef :=
  toolboxTools ++ getBuiltinToolDefinitions

/-- The `CallToolRequestSchema` handler (`src/cli.ts` updated server copy):
dispatch to a built-in handler when the name matches one, otherwise forward
verbatim to the toolbox; any thrown error is converted to an error
envelope (the built-in handlers are total in this embedding, so the catch
is observable on the forwarding path). -/
def invoke (client : RemoteCall) (prebuiltType : Option PrebuiltDatabase)
    (name : String) (args : Args) : Envelope :=
  match findBuiltinTool name with
  | some tool => tool.handler args client prebuiltType
  | none =>
    match client name (.raw args) with
    | .ok r => r
    | .error e => errEnvelope ("Error: " ++ e)

/-- A remote client whose every call throws with message `m`. -/
def failClient (m : String) : RemoteCall := fun _ _ => .error m

/-- A remote client that echoes the received SQL statement back as the
envelope text (used to observe the rendered statement). -/
def echoClient : RemoteCall := fun _ p =>
  .ok { content := [{ ctype := "text",
                      text := match p with | .sql s => s | .raw _ => "" }],
        isError := false }

lemma executeSQL_fail (m sql : String) :
    (executeSQL (failClient m) sql).isError = true := rfl

lemma builtin_handler_fail :
    ∀ t ∈ BUILTIN_TOOLS, ∀ (args : Args) (dbType : Option PrebuiltDatabase) (m : String),
      (t.handler args (failClient m) dbType).isError = true := by
  intro t ht args dbType m
  simp only [BUILTIN_TOOLS, List.mem_cons, List.not_mem_nil, or_false] at ht
  rcases ht with rfl | rfl | rfl | rfl | rfl | rfl | rfl | rfl | rfl | rfl | rfl | rfl | rfl | rfl <;>
    simp only [listDatabasesHandler, listSchemasHandler, schemaInfoHandler, listTablesHandler,
      describeTableHandler, previewTableHandler, countRowsHandler, tableStatsHandler,
      searchTablesHandler, listColumnsHandler, sampleDistinctHandler, listViewsHandler,
      listIndexesHandler, listConstraintsHandler] <;>
    first
    | exact executeSQL_fail m _
    | (cases jsStr args.table <;>
        first
        | rfl
        | exact executeSQL_fail m _
        | (cases jsStr args.column <;> first | rfl | exact executeSQL_fail m _))
    | (cases jsStr args.pattern <;> first | rfl | exact executeSQL_fail m _)

/-- C2: the tool-call handler always returns a result envelope and never
propagates an exception: under a remote client whose every call throws, the
result for any tool name is an error envelope; a forwarded unknown name
whose remote call throws yields an error envelope; and a `describe_table`
call with the required `table` parameter missing yields an error envelope
for every client. -/
theorem claim_C2 (m : String) (pb : Option PrebuiltDatabase) (name : String)
    (args : Args) (client : RemoteCall) :
    ((invoke (failClient m) pb name args).isError = true)
    ∧ (findBuiltinTool name = none → client name (.raw args) = .error m →
        (invoke client pb name args).isError = true)
    ∧ (args.table = none → (invoke client pb "describe_table" args).isError = true) := by
  refine ⟨?_, ?_, ?_⟩
  · cases hf : findBuiltinTool name with
    | none => simp [invoke, hf, failClient, errEnvelope]
    | some tool =>
      have hmem : tool ∈ BUILTIN_TOOLS := List.mem_of_find?_eq_some hf
      simp only [invoke, hf]
      exact builtin_handler_fail tool hmem args pb m
  · intro hf hc
    simp [invoke, hf, hc, errEnvelope]
  · intro ht
    have hfind : findBuiltinTool "describe_table"
        = some { name := "describe_table",
                 description := "Get the schema/structure of a specific table including column names, data types, and constraints",
                 required := ["table"], handler := describeTableHandler } := rfl
    simp [invoke, hfind, describeTableHandler, ht, jsStr, errEnvelope]

/-- Witness for C2 at concrete inputs. -/
theorem claim_C2_witness :
    (findBuiltinTool "nope" = none
      ∧ failClient "boom" "nope" (.raw {}) = .error "boom"
      ∧ ({} : Args).table = none)
    ∧ (invoke (failClient "boom") none "nope" {}).isError = true
    ∧ (invoke (failClient "boom") none "nope" {}).isError = true
    ∧ (invoke (failClient "boom") none "describe_table" {}).isError = true :=
  ⟨⟨rfl, rfl, rfl⟩,
   (claim_C2 "boom" none "nope" {} (failClient "boom")).1,
   (claim_C2 "boom" none "nope" {} (failClient "boom")).2.1 rfl rfl,
   (claim_C2 "boom" none "nope" {} (failClient "boom")).2.2 rfl⟩

/-- C3: the effective row limit of `preview_table` (default 5) and
`sample_distinct` (default 20) is always clamped into `[1, 100]`; input
`-5` yields 1, input `9999` yields 100, an absent input yields the
default; and the clamped value is what is embedded in the rendered SQL
statement (observed through a client echoing the received statement). -/
theorem claim_C3 (l : Option Int) :
    (1 ≤ clampLimit l 5 ∧ clampLimit l 5 ≤ 100)
    ∧ (1 ≤ clampLimit l 20 ∧ clampLimit l 20 ≤ 100)
    ∧ clampLimit (some (-5)) 5 = 1 ∧ clampLimit (some 9999) 5 = 100
    ∧ clampLimit (some (-5)) 20 = 1 ∧ clampLimit (some 9999) 20 = 100
    ∧ clampLimit none 5 = 5 ∧ clampLimit none 20 = 20
    ∧ previewTableHandler { table := some "t", limit := some (-5) } echoClient (some .sqlite)
        = { content := [{ ctype := "text", text := "SELECT * FROM \"t\" LIMIT 1" }],
            isError := false }
    ∧ previewTableHandler { table := some "t", limit := some 9999 } echoClient (some .sqlite)
        = { content := [{ ctype := "text", text := "SELECT * FROM \"t\" LIMIT 100" }],
            isError := false }
    ∧ previewTableHandler { table := some "t" } echoClient (some .sqlite)
        = { content := [{ ctype := "text", text := "SELECT * FROM \"t\" LIMIT 5" }],
            isError := false }
    ∧ sampleDistinctHandler { table := some "t", column := some "c" } echoClient (some .sqlite)
        = { content := [{ ctype := "text", text := "SELECT DISTINCT \"c\" FROM \"t\" LIMIT 20" }],
            isError := false }
    ∧ sampleDistinctHandler { table := some "t", column := some "c", limit := some 9999 }
          echoClient (some .sqlite)
        = { content := [{ ctype := "text", text := "SELECT DISTINCT \"c\" FROM \"t\" LIMIT 100" }],
            isError := false } := by
  refine ⟨⟨?_, ?_⟩, ⟨?_, ?_⟩, by decide, by decide, by decide, by decide, by decide, by decide,
    by decide, by decide, by decide, by decide, by decide⟩ <;>
  · simp only [clampLimit, jsOrNum]
    rcases l with - | x
    · simp
    · by_cases hx : x = 0 <;> simp [hx] <;> omega

/-- C4: a remote tool sharing its name with a built-in appears twice in
the merged listing (no de-duplication), and invoking that name dispatches
to the built-in handler, not to the remote tool. -/
theorem claim_C4 (remote : List ToolDef) (t : ToolDef) (client : RemoteCall)
    (pb : Option PrebuiltDatabase) (args : Args)
    (hmem : t ∈ remote) (hshared : ∃ b ∈ getBuiltinToolDefinitions, b.name = t.name) :
    (listTools remote = remote ++ getBuiltinToolDefinitions)
    ∧ 2 ≤ ((listTools remote).filter (fun x => x.name = t.name)).length
    ∧ ∃ tool, findBuiltinTool t.name = some tool
        ∧ invoke client pb t.name args = tool.handler args client pb := by
  obtain ⟨b, hb, hbn⟩ := hshared
  refine ⟨rfl, ?_, ?_⟩
  · rw [listTools, List.filter_append, List.length_append]
    have h1 : t ∈ remote.filter (fun x => x.name = t.name) :=
      List.mem_filter.mpr ⟨hmem, by simp⟩
    have h2 : b ∈ getBuiltinToolDefinitions.filter (fun x => x.name = t.name) :=
      List.mem_filter.mpr ⟨hb, by simp [hbn]⟩
    have l1 := List.length_pos_of_mem h1
    have l2 := List.length_pos_of_mem h2
    omega
  · have hsome : (BUILTIN_TOOLS.find? (fun x => x.name = t.name)).isSome := by
      rw [List.find?_isSome]
      obtain ⟨tool, htool, hteq⟩ := List.mem_map.mp hb
      have hnm : tool.name = t.name := by rw [← hbn, ← hteq]
      exact ⟨tool, htool, by simp [hnm]⟩
    obtain ⟨tool, hfind⟩ := Option.isSome_iff_exists.mp hsome
    exact ⟨tool, hfind, by simp [invoke, findBuiltinTool, hfind]⟩

/-- Witness for C4: a remote tool named `list_tables` (also a built-in). -/
theorem claim_C4_witness :
    ((⟨"list_tables", "remote copy"⟩ : ToolDef) ∈ ([⟨"list_tables", "remote copy"⟩] : List ToolDef)
      ∧ ∃ b ∈ getBuiltinToolDefinitions, b.name = (⟨"list_tables", "remote copy"⟩ : ToolDef).name)
    ∧ ((listTools [⟨"list_tables", "remote copy"⟩]
          = [(⟨"list_tables", "remote copy"⟩ : ToolDef)] ++ getBuiltinToolDefinitions)
        ∧ 2 ≤ ((listTools [⟨"list_tables", "remote copy"⟩]).filter
              (fun x => x.name = (⟨"list_tables", "remote copy"⟩ : ToolDef).name)).length
        ∧ ∃ tool, findBuiltinTool (⟨"list_tables", "remote copy"⟩ : ToolDef).name = some tool
            ∧ invoke (failClient "x") none (⟨"list_tables", "remote copy"⟩ : ToolDef).name {}
                = tool.handler {} (failClient "x") none) :=
  ⟨⟨by decide, by decide⟩,
   claim_C4 [⟨"list_tables", "remote copy"⟩] ⟨"list_tables", "remote copy"⟩
     (failClient "x") none {} (by decide) (by decide)⟩

/-- The outcome of the HTTP readiness poll: whether a connection succeeded,
how many connection attempts were made, the accumulated delay in
milliseconds, and the thrown error when the bound was exhausted. -/
structure WaitOutcome where
  ok : Bool
  attempts : Nat
  delayMs : Nat
  err : Option String
deriving DecidableEq, Repr

/-- The poll loop of `waitForHttpServer` (`src/server.ts` and the updated
copy in `src/cli.ts`): at most `n` more attempts starting at attempt
index `i`; each failed attempt is followed by a 250ms delay; exhausting
the bound throws. The connectivity oracle `probe` tells whether attempt
`i` reaches the server. -/
def waitGo (probe : Nat → Bool) (i : Nat) : Nat → WaitOutcome
  | 0 => { ok := false, attempts := 0, delayMs := 0,
           err := some "Toolbox HTTP server not reachable" }
  | n + 1 =>
    if probe i then { ok := true, attempts := 1, delayMs := 0, err := none }
    else
      let r := waitGo probe (i + 1) n
      { ok := r.ok, attempts := r.attempts + 1, delayMs := r.delayMs + 250, err := r.err }

/-- `waitForHttpServer`: `maxAttempts = 20`, 250ms apart. -/
def waitForHttpServer (probe : Nat → Bool) : WaitOutcome := waitGo probe 0 20

lemma waitGo_never (probe : Nat → Bool) (h : ∀ i, probe i = false) :
    ∀ (n i : Nat), waitGo probe i n
      = { ok := false, attempts := n, delayMs := 250 * n,
          err := some "Toolbox HTTP server not reachable" } := by
  intro n
  induction n with
  | zero => intro i; rfl
  | succ n ih =>
    intro i
    simp only [waitGo, h i, if_false, ih (i + 1)]
    constructor <;> omega

/-- C9: against a host/port that never accepts a connection, the poll makes
exactly 20 attempts with a 250ms delay after each (20 × 250ms = 5000ms,
the ~5s bound) and then fails with the thrown process error; it neither
fails earlier nor polls indefinitely. -/
theorem claim_C9 (probe : Nat → Bool) (h : ∀ i, probe i = false) :
    waitForHttpServer probe
      = { ok := false, attempts := 20, delayMs := 5000,
          err := some "Toolbox HTTP server not reachable" } := by
  rw [waitForHttpServer, waitGo_never probe h 20 0]

/-- Witness for C9: the probe that never connects. -/
theorem claim_C9_witness :
    ((∀ i, (fun _ : Nat => false) i = false)
      ∧ waitForHttpServer (fun _ => false)
          = { ok := false, attempts := 20, delayMs := 5000,
              err := some "Toolbox HTTP server not reachable" }) :=
  ⟨fun _ => rfl, claim_C9 (fun _ => false) (fun _ => rfl)⟩

/-- The lifecycle fields of `DatabaseMCPServer` that `stop` inspects:
whether the toolbox client, transport and subprocess handles are live, and
the ephemeral config file path. -/
structure ServerState where
  toolboxClient : Bool
  toolboxTransport : Bool
  toolboxProcess : Bool
  configPath : Option String
deriving DecidableEq, Repr

/-- The side effects `stop` can perform, in order. -/
inductive StopEffect where
  | closeClient
  | closeTransport
  | killProcess
  | unlinkConfig (path : String)
  | closeServer
deriving DecidableEq, Repr

/-- `DatabaseMCPServer.stop` (`src/server.ts`, same in the `src/cli.ts`
copy): close the client, transport and subprocess and delete the config
file — each only when its field is non-null — null every field, and close
the MCP server unconditionally; the unlink failure is swallowed, so the
model has no failure outcome. -/
def stopServer (s : ServerState) : ServerState × List StopEffect :=
  let e1 : List StopEffect := if s.toolboxClient then [.closeClient] else []
  let e2 : List StopEffect := if s.toolboxTransport then [.closeTransport] else []
  let e3 : List StopEffect := if s.toolboxProcess then [.killProcess] else []
  let e4 : List StopEffect := match s.configPath with
    | some p => [.unlinkConfig p]
    | none => []
  ({ toolboxClient := false, toolboxTransport := false, toolboxProcess := false,
     configPath := none },
   e1 ++ e2 ++ e3 ++ e4 ++ [.closeServer])

/-- C10: stopping twice is a no-op on the second call — the first call
clears every lifecycle field, so the second call performs no subprocess
kill and no config-file deletion (only the unconditional server close),
leaves the state unchanged, and (the model being a total function) raises
no exception. -/
theorem claim_C10 (s : ServerState) :
    (stopServer (stopServer s).1).2 = [.closeServer]
    ∧ StopEffect.killProcess ∉ (stopServer (stopServer s).1).2
    ∧ (∀ p, StopEffect.unlinkConfig p ∉ (stopServer (stopServer s).1).2)
    ∧ (stopServer (stopServer s).1).1 = (stopServer s).1 := by
  have h2 : (stopServer (stopServer s).1).2 = [.closeServer] := rfl
  refine ⟨h2, ?_, ?_, rfl⟩
  · rw [h2]
    simp
  · intro p
    rw [h2]
    simp
